import Mathlib

/-!
Shallow embedding of the publish store module (src/store/modules/publish.ts).

The module orchestrates build requests against an external build service.
Each action constructs a JavaScript `new Promise` whose executor is an async
function calling `reject`/`resolve` without returning afterwards, so a call to
`reject` records the settled value of the promise (first settle wins) but does
NOT stop execution: later statements, including the network call and the
state-mutating `commit`, still run.  The embedding makes this explicit: each
operation returns the settled outcome of the promise, the final state, and the
request that was sent to the network (if any).

JavaScript optional string values are modelled as `Option String` with `none`
standing for `undefined`/`null`; string falsiness (empty string is falsy)
is modelled by `falsyS`.  The network transport is a parameter: a function
from the sent request to the service's response.
-/

/-- Falsiness of an optional JS string: `undefined`, `null` and `""` are falsy. -/
def falsyS : Option String → Bool
  | none => true
  | some s => s.isEmpty

/-- The session state of the publish module (interface `State` and `state()`). -/
structure PublishState where
  status : Option Bool
  archiveLink : Option String
  appXLink : Option String
  downloadDisabled : Bool
  deriving Repr, DecidableEq

/-- Initial value produced by `state()`: all fields at their defaults. -/
def initialState : PublishState :=
  { status := none, archiveLink := none, appXLink := none, downloadDisabled := false }

/-- The constant `platforms` lookup object of the source. -/
structure PlatformRegistry where
  web : String
  windows10 : String
  windows : String
  ios : String
  android : String
  androidTWA : String
  samsung : String
  msteams : String
  all : String
  deriving Repr, DecidableEq

/-- The `platforms` constant: canonical key to backend-facing identifier,
plus the sentinel `all` whose value is the string `All`. -/
def platforms : PlatformRegistry :=
  { web := "web"
  , windows10 := "windows10"
  , windows := "windows"
  , ios := "ios"
  , android := "android"
  , androidTWA := "android-twa"
  , samsung := "samsung"
  , msteams := "msteams"
  , all := "All" }

/-- Body of the generic build request (the `options` object assembled in
`build`).  The platform entries and the directory suffix are optional strings
because the source places `params.platform` there unvalidated, and that value
may be `undefined`. -/
structure BuildRequest where
  platforms : List (Option String)
  dirSuffix : Option String
  parameters : Option (List String)
  deriving Repr, DecidableEq

/-- Platform expansion in `build`: the strict comparison
`params.platform === platforms.all` selects the fixed full list, otherwise the
single given platform. -/
def expandPlatforms (p : Option String) : List (Option String) :=
  if p == some platforms.all then
    [ some platforms.web, some platforms.windows10, some platforms.windows
    , some platforms.ios, some platforms.android, some platforms.androidTWA
    , some platforms.samsung, some platforms.msteams ]
  else
    [p]

/-- Assembly of the build request body:
`{ platforms: platformsList, dirSuffix: params.platform, parameters: params.options }`. -/
def mkBuildRequest (platform : Option String) (options : Option (List String)) : BuildRequest :=
  { platforms := expandPlatforms platform, dirSuffix := platform, parameters := options }

/-- Everything `build` sends to the service: the URL carries the manifest id,
the service-worker id and `href`; the body is the `BuildRequest`. -/
structure SentBuild where
  manifestId : Option String
  serviceworker : Option String
  href : String
  body : BuildRequest
  deriving Repr, DecidableEq

/-- The JS value found at `e.response.data` of a failed request: absent
(`undefined`/`null`), a raw text body, or a structured object with an optional
`error` field. -/
inductive JsData
  | absent
  | text (s : String)
  | structured (error : Option String)
  deriving Repr, DecidableEq

/-- JS truthiness of the response body: `undefined`/`null` are falsy, a string
is truthy iff non-empty, an object is always truthy. -/
def JsData.truthy : JsData → Bool
  | JsData.absent => false
  | JsData.text s => !s.isEmpty
  | JsData.structured _ => true

/-- Property access `data.error`: `undefined` (`none`) unless the body is an
object carrying the field. -/
def JsData.errorField : JsData → Option String
  | JsData.structured e => e
  | _ => none

/-- A failed response as probed by the catch clauses: its parsed body and its
status text. -/
structure ErrResponse where
  data : JsData
  statusText : String
  deriving Repr, DecidableEq

/-- The message computed by the catch clause of `build`:
`e.response.data ? e.response.data.error : e.response.data || e.response.statusText`.
When the body is truthy the result is its `error` field (which is `undefined`
for a raw-text body); when the body is falsy, `data || statusText` evaluates to
the status text. -/
def errorMessageOf (r : ErrResponse) : Option String :=
  if r.data.truthy then r.data.errorField
  else some r.statusText

/-- Outcome of the network call made by `build`: a success body (whose
`archive` field may be absent) or a failed response. -/
inductive NetResult
  | ok (archive : Option String)
  | err (resp : ErrResponse)
  deriving Repr, DecidableEq

/-- Settled value of an action's promise: `resolved`, or `rejected` with the
rejection value (`none` models rejecting with `undefined`). -/
inductive BuildOutcome
  | resolved
  | rejected (msg : Option String)
  deriving Repr, DecidableEq

/-- Result of running one orchestration action: the promise's settled outcome,
the publish state after the run, and the request that reached the network
layer, if any. -/
structure Run (Req : Type) where
  outcome : BuildOutcome
  state : PublishState
  sent : Option Req
  deriving Repr

/-- Mutation `UPDATE_ARCHIVELINK`. -/
def updateArchiveLink (s : PublishState) (url : Option String) : PublishState :=
  { s with archiveLink := url }

/-- Mutation `UPDATE_APPXLINK`. -/
def updateAppxLink (s : PublishState) (url : Option String) : PublishState :=
  { s with appXLink := url }

/-- Mutation `UPDATE_DOWNLOAD_DISABLED`. -/
def updateDownloadDisabled (s : PublishState) (d : Bool) : PublishState :=
  { s with downloadDisabled := d }

/-- Action `build`.  The executor runs to completion even after a `reject`:
the checks record the first rejection, the network call is made regardless,
and a successful network response commits `UPDATE_ARCHIVELINK` regardless of
earlier rejections.  The promise keeps the first settled value. -/
def build (manifestId serviceworker : Option String) (platform : Option String)
    (href : String) (options : Option (List String))
    (net : SentBuild → NetResult) (s : PublishState) : Run SentBuild :=
  let req : SentBuild :=
    { manifestId := manifestId, serviceworker := serviceworker, href := href
    , body := mkBuildRequest platform options }
  let nr := net req
  let outcome :=
    if falsyS manifestId || falsyS serviceworker then
      BuildOutcome.rejected (some "error.manifest_required")
    else if falsyS platform then
      BuildOutcome.rejected (some "error.platform_required")
    else
      match nr with
      | NetResult.ok _ => BuildOutcome.resolved
      | NetResult.err r => BuildOutcome.rejected (errorMessageOf r)
  let st :=
    match nr with
    | NetResult.ok a => updateArchiveLink s a
    | NetResult.err _ => s
  { outcome := outcome, state := st, sent := some req }

/-- The `AppxParams` interface. -/
structure AppxParams where
  publisher : Option String
  publisher_id : Option String
  package : Option String
  version : Option String
  deriving Repr, DecidableEq

/-- Body of the appx request: `name` carries the local publisher, `publisher`
carries the local publisher id. -/
structure AppxRequest where
  name : Option String
  publisher : Option String
  package : Option String
  version : Option String
  deriving Repr, DecidableEq

/-- Assembly of the appx request body:
`{ name: params.publisher, publisher: params.publisher_id, package: params.package, version: params.version }`. -/
def mkAppxRequest (p : AppxParams) : AppxRequest :=
  { name := p.publisher, publisher := p.publisher_id
  , package := p.package, version := p.version }

/-- Everything `buildAppx` sends: the manifest id in the URL, the body. -/
structure SentAppx where
  manifestId : Option String
  body : AppxRequest
  deriving Repr, DecidableEq

/-- Outcome of the network call made by `buildAppx`: a success body, or a
failure carrying the raw error text that the catch clause derives from it
(`e.response.data ? e.response.data.error.toString() : e.response.toString()`). -/
inductive AppxNet
  | ok (archive : Option String)
  | err (text : String)
  deriving Repr, DecidableEq

/-- Character-list check: does the list start with the pattern. -/
def startsWithL : List Char → List Char → Bool
  | [], _ => true
  | _ :: _, [] => false
  | p :: ps, c :: cs => p == c && startsWithL ps cs

/-- Character-list substring containment. -/
def containsL (pat : List Char) : List Char → Bool
  | [] => startsWithL pat []
  | c :: cs => startsWithL pat (c :: cs) || containsL pat cs

/-- JS `String.prototype.includes`: `strIncludes s pat` is true iff `pat`
occurs contiguously in `s`. -/
def strIncludes (s pat : String) : Bool :=
  containsL pat.toList s.toList

/-- The backend fault signature for a bad publisher identity. -/
def pubMarker : String := "@Publisher\nPackage creation failed"

/-- The backend fault signature for a bad version number. -/
def verMarker : String := "@Version\nPackage creation failed."

/-- The error classifier of the `buildAppx` catch clause: substring matching
against the two fault signatures, first match wins, generic bucket otherwise. -/
def classifyAppxError (error : String) : String :=
  if strIncludes error pubMarker then "Invalid Publisher Identity."
  else if strIncludes error verMarker then "Invalid Version Number."
  else "Package building error."

/-- Action `buildAppx`.  Same non-returning `reject` shape as `build`: the
checks record the first rejection, the network call is made regardless, and a
successful network response commits `UPDATE_APPXLINK` regardless of earlier
rejections. -/
def buildAppx (manifestId : Option String) (p : AppxParams)
    (net : SentAppx → AppxNet) (s : PublishState) : Run SentAppx :=
  let req : SentAppx := { manifestId := manifestId, body := mkAppxRequest p }
  let nr := net req
  let outcome :=
    if falsyS manifestId then
      BuildOutcome.rejected (some "error.manifest_required")
    else if falsyS p.publisher || falsyS p.publisher_id || falsyS p.package
        || falsyS p.version then
      BuildOutcome.rejected (some "error.fields_required")
    else
      match nr with
      | AppxNet.ok _ => BuildOutcome.resolved
      | AppxNet.err t => BuildOutcome.rejected (some (classifyAppxError t))
  let st :=
    match nr with
    | AppxNet.ok a => updateAppxLink s a
    | AppxNet.err _ => s
  { outcome := outcome, state := st, sent := some req }

/-- The `TeamsParams` interface decoded from the JSON options payload.  The
image files are opaque blobs; only their presence matters. -/
structure TeamsParams where
  publisherName : Option String
  shortDescription : Option String
  longDescription : Option String
  privacyUrl : Option String
  termsOfUseUrl : Option String
  colorImageFile : Option Unit
  outlineImageFile : Option Unit
  deriving Repr, DecidableEq

/-- The required-field check of `buildTeams`, in source order:
`!publisherName || !longDescription || !shortDescription || !privacyUrl || !termsOfUseUrl || !colorImageFile`. -/
def teamsMissing (t : TeamsParams) : Bool :=
  falsyS t.publisherName || falsyS t.longDescription || falsyS t.shortDescription
    || falsyS t.privacyUrl || falsyS t.termsOfUseUrl || t.colorImageFile.isNone

/-- The string handed to `JSON.parse` by `buildTeams`:
`params.options ? params.options[0] : "\x7b\x7d"`.  An absent options array
yields the empty-object literal; an empty array is truthy in JS, so its first
element is `undefined` (`none` here) and `JSON.parse` will throw on it. -/
def teamsSource : Option (List String) → Option String
  | none => some "\x7b\x7d"
  | some [] => none
  | some (s :: _) => some s

/-- Settled fate of a `buildTeams` invocation.  `pending` models the promise
never settling: the async executor threw (a `JSON.parse` failure) after no
`reject`/`resolve` had run, the `Promise` constructor discards the executor's
own rejection, and the chained `build` dispatch never happens. -/
inductive TeamsResult
  | pending
  | rejected (msg : String)
  | delegated (platform : String) (href : String) (options : Option (List String))
  deriving Repr, DecidableEq

/-- Action `buildTeams`, parametric in the JSON decoder (`JSON.parse` belongs
to the language runtime): `parse` returns the decoded `TeamsParams` or an
error when the text is not valid JSON.  A falsy manifest id rejects first and
that rejection survives everything that follows; with a manifest id present, a
decode failure leaves the promise pending forever, a failed field check
rejects, and otherwise the resolved promise delegates to `build` with the
`msteams` platform and the original `href` and `options`. -/
def buildTeams (parse : String → Except Unit TeamsParams) (manifestId : Option String)
    (href : String) (options : Option (List String)) : TeamsResult :=
  if falsyS manifestId then
    TeamsResult.rejected "error.manifest_required"
  else
    match teamsSource options with
    | none => TeamsResult.pending
    | some src =>
      match parse src with
      | Except.error _ => TeamsResult.pending
      | Except.ok tp =>
        if teamsMissing tp then TeamsResult.rejected "error.fields_required"
        else TeamsResult.delegated platforms.msteams href options

/-- Action `disableDownloadButton`. -/
def disableDownloadButton (s : PublishState) : PublishState :=
  updateDownloadDisabled s true

/-- Action `enableDownloadButton`. -/
def enableDownloadButton (s : PublishState) : PublishState :=
  updateDownloadDisabled s false

/-! ## Claim theorems -/

/-- C1, counterexample: a `build` call with the manifest identifier absent is
rejected with `error.manifest_required`, yet the request still reaches the
network layer (`sent` is populated), because the executor continues past the
non-returning `reject`. -/
theorem build_missing_manifest_still_hits_network :
    (build none (some "sw") (some "web") "h" none
        (fun _ => NetResult.ok none) initialState).outcome
      = BuildOutcome.rejected (some "error.manifest_required")
    ∧ (build none (some "sw") (some "web") "h" none
        (fun _ => NetResult.ok none) initialState).sent.isSome = true :=
  ⟨rfl, rfl⟩

/-- C1, amended: a `build` call with a falsy manifest or service-worker id
settles rejected with `error.manifest_required`; with both ids present but a
falsy platform it settles rejected with `error.platform_required`; in every
case, the failing ones included, the request is still sent to the network. -/
theorem build_precondition_signals (mid sw p : Option String) (href : String)
    (opts : Option (List String)) (net : SentBuild → NetResult) (s : PublishState) :
    ((falsyS mid || falsyS sw) = true →
      (build mid sw p href opts net s).outcome
        = BuildOutcome.rejected (some "error.manifest_required"))
    ∧ ((falsyS mid || falsyS sw) = false → falsyS p = true →
      (build mid sw p href opts net s).outcome
        = BuildOutcome.rejected (some "error.platform_required"))
    ∧ (build mid sw p href opts net s).sent.isSome = true := by
  refine ⟨fun h => ?_, fun h1 h2 => ?_, rfl⟩
  · simp [build, h]
  · simp [build, h1, h2]

/-- C1 witness: the amended theorem applied at a concrete input with the
manifest identifier absent. -/
theorem build_precondition_signals_witness :
    (build none (some "sw") (some "web") "h" none
        (fun _ => NetResult.err ⟨JsData.absent, "st"⟩) initialState).outcome
      = BuildOutcome.rejected (some "error.manifest_required") :=
  (build_precondition_signals none (some "sw") (some "web") "h" none
      (fun _ => NetResult.err ⟨JsData.absent, "st"⟩) initialState).1 (by decide)

/-- C2, counterexample: a `build` call that fails (rejected with
`error.manifest_required`) while its network call succeeds still commits the
archive link into the state. -/
theorem build_failed_invocation_writes_state :
    (build none (some "sw") (some "web") "h" none
        (fun _ => NetResult.ok (some "https://x/y.zip")) initialState).outcome
      = BuildOutcome.rejected (some "error.manifest_required")
    ∧ (build none (some "sw") (some "web") "h" none
        (fun _ => NetResult.ok (some "https://x/y.zip")) initialState).state.archiveLink
      = some "https://x/y.zip" :=
  ⟨rfl, rfl⟩

/-- C2, amended: an invocation of `build` or `buildAppx` whose network call
fails leaves the publish state exactly as it was; only a successful network
response mutates it. -/
theorem failed_network_leaves_state_unchanged (mid sw p : Option String)
    (href : String) (opts : Option (List String)) (s : PublishState)
    (r : ErrResponse) (mid2 : Option String) (ap : AppxParams) (t : String) :
    (build mid sw p href opts (fun _ => NetResult.err r) s).state = s
    ∧ (buildAppx mid2 ap (fun _ => AppxNet.err t) s).state = s :=
  ⟨rfl, rfl⟩

/-- C3: a `build` call with the `all` sentinel sends the fixed platform list
in its fixed order, and the sentinel value itself is not in the list. -/
theorem build_all_platform_list (mid sw : Option String) (href : String)
    (opts : Option (List String)) (net : SentBuild → NetResult) (s : PublishState) :
    ∃ q : SentBuild, (build mid sw (some platforms.all) href opts net s).sent = some q
      ∧ q.body.platforms =
        [ some platforms.web, some platforms.windows10, some platforms.windows
        , some platforms.ios, some platforms.android, some platforms.androidTWA
        , some platforms.samsung, some platforms.msteams ]
      ∧ q.body.platforms.contains (some platforms.all) = false := by
  refine ⟨_, rfl, ?_, ?_⟩ <;> rfl

/-- C4: the appx request body swaps the fields: wire `name` carries the local
`publisher`, wire `publisher` carries the local `publisher_id`, while
`package` and `version` map identically. -/
theorem buildAppx_field_swap (mid : Option String) (p : AppxParams)
    (net : SentAppx → AppxNet) (s : PublishState) :
    ∃ q : SentAppx, (buildAppx mid p net s).sent = some q
      ∧ q.body.name = p.publisher
      ∧ q.body.publisher = p.publisher_id
      ∧ q.body.package = p.package
      ∧ q.body.version = p.version :=
  ⟨_, rfl, rfl, rfl, rfl, rfl⟩

/-- C5: a failed `buildAppx` call (preconditions satisfied) rejects with the
classified message: publisher marker first, then version marker, then the
generic bucket. -/
theorem buildAppx_error_classification (mid : Option String) (ap : AppxParams)
    (t : String) (s : PublishState)
    (hm : falsyS mid = false)
    (hf : (falsyS ap.publisher || falsyS ap.publisher_id || falsyS ap.package
        || falsyS ap.version) = false) :
    (strIncludes t pubMarker = true →
      (buildAppx mid ap (fun _ => AppxNet.err t) s).outcome
        = BuildOutcome.rejected (some "Invalid Publisher Identity."))
    ∧ (strIncludes t pubMarker = false → strIncludes t verMarker = true →
      (buildAppx mid ap (fun _ => AppxNet.err t) s).outcome
        = BuildOutcome.rejected (some "Invalid Version Number."))
    ∧ (strIncludes t pubMarker = false → strIncludes t verMarker = false →
      (buildAppx mid ap (fun _ => AppxNet.err t) s).outcome
        = BuildOutcome.rejected (some "Package building error.")) := by
  refine ⟨fun h1 => ?_, fun h1 h2 => ?_, fun h1 h2 => ?_⟩
  · simp [buildAppx, hm, hf, classifyAppxError, h1]
  · simp [buildAppx, hm, hf, classifyAppxError, h1, h2]
  · simp [buildAppx, hm, hf, classifyAppxError, h1, h2]

/-- C5 witness: classification applied to an error text equal to the
publisher-identity marker. -/
theorem buildAppx_error_classification_witness :
    (buildAppx (some "m") ⟨some "pub", some "pid", some "pkg", some "1.0"⟩
        (fun _ => AppxNet.err pubMarker) initialState).outcome
      = BuildOutcome.rejected (some "Invalid Publisher Identity.") :=
  (buildAppx_error_classification (some "m")
      ⟨some "pub", some "pid", some "pkg", some "1.0"⟩ pubMarker initialState
      (by decide) (by decide)).1 (by decide)

/-- Concrete Teams payload with every required field present (demo decoder
output used by witnesses). -/
def teamsFull : TeamsParams :=
  { publisherName := some "pn", shortDescription := some "sd"
  , longDescription := some "ld", privacyUrl := some "purl"
  , termsOfUseUrl := some "turl", colorImageFile := some ()
  , outlineImageFile := none }

/-- Decoded empty JSON object: every field absent. -/
def teamsEmptyObj : TeamsParams :=
  { publisherName := none, shortDescription := none, longDescription := none
  , privacyUrl := none, termsOfUseUrl := none, colorImageFile := none
  , outlineImageFile := none }

/-- Demo JSON decoder for witnesses: decodes the empty-object literal to
`teamsEmptyObj`, the text `full` to `teamsFull`, and fails on anything else. -/
def parseDemo : String → Except Unit TeamsParams :=
  fun s =>
    if s = "\x7b\x7d" then Except.ok teamsEmptyObj
    else if s = "full" then Except.ok teamsFull
    else Except.error ()

/-- C6: with the manifest id present, a `buildTeams` whose decoded options
miss a required field rejects with `error.fields_required` and never
delegates; when every required field is present it delegates to `build` with
the `msteams` platform and the original `href` and `options`; absent options
decode the empty-object literal, which fails the field check. -/
theorem buildTeams_validation_and_delegation
    (parse : String → Except Unit TeamsParams) (mid : Option String)
    (href : String) (opts : Option (List String)) (hm : falsyS mid = false) :
    (∀ src tp, teamsSource opts = some src → parse src = Except.ok tp →
      teamsMissing tp = true →
      buildTeams parse mid href opts = TeamsResult.rejected "error.fields_required")
    ∧ (∀ src tp, teamsSource opts = some src → parse src = Except.ok tp →
      teamsMissing tp = false →
      buildTeams parse mid href opts = TeamsResult.delegated platforms.msteams href opts)
    ∧ (∀ tp, opts = none → parse "\x7b\x7d" = Except.ok tp → teamsMissing tp = true →
      buildTeams parse mid href none = TeamsResult.rejected "error.fields_required") := by
  refine ⟨fun src tp hsrc hp hmiss => ?_, fun src tp hsrc hp hmiss => ?_,
    fun tp _ hp hmiss => ?_⟩
  · simp [buildTeams, hm, hsrc, hp, hmiss]
  · simp [buildTeams, hm, hsrc, hp, hmiss]
  · simp [buildTeams, hm, teamsSource, hp, hmiss]

/-- C6 witness: the theorem applied with the demo decoder, once on a
well-formed full payload (delegation) and once on absent options (rejected
for missing fields). -/
theorem buildTeams_validation_witness :
    buildTeams parseDemo (some "m") "h" (some ["full"])
      = TeamsResult.delegated platforms.msteams "h" (some ["full"])
    ∧ buildTeams parseDemo (some "m") "h" none
      = TeamsResult.rejected "error.fields_required" :=
  ⟨(buildTeams_validation_and_delegation parseDemo (some "m") "h" (some ["full"])
      (by decide)).2.1 "full" teamsFull rfl rfl (by decide),
   (buildTeams_validation_and_delegation parseDemo (some "m") "h" none
      (by decide)).2.2 teamsEmptyObj rfl rfl (by decide)⟩

/-- C7: for any platform value other than the `all` sentinel the request body
carries exactly the one-element platform list, and in every case, the
sentinel included, the body's `dirSuffix` is the original platform argument. -/
theorem build_single_platform_and_dirSuffix (mid sw p : Option String)
    (href : String) (opts : Option (List String)) (net : SentBuild → NetResult)
    (s : PublishState) :
    ((build mid sw p href opts net s).sent.map (fun q => q.body.dirSuffix)) = some p
    ∧ (p ≠ some platforms.all →
      ((build mid sw p href opts net s).sent.map (fun q => q.body.platforms)) = some [p]) := by
  refine ⟨rfl, fun h => ?_⟩
  simp [build, mkBuildRequest, expandPlatforms, h]

/-- C7 witness: the theorem applied at the concrete platform `ios`. -/
theorem build_single_platform_witness :
    ((build (some "m") (some "sw") (some "ios") "h" none
        (fun _ => NetResult.ok none) initialState).sent.map
      (fun q => q.body.dirSuffix)) = some (some "ios")
    ∧ ((build (some "m") (some "sw") (some "ios") "h" none
        (fun _ => NetResult.ok none) initialState).sent.map
      (fun q => q.body.platforms)) = some [some "ios"] :=
  ⟨(build_single_platform_and_dirSuffix (some "m") (some "sw") (some "ios") "h"
      none (fun _ => NetResult.ok none) initialState).1,
   (build_single_platform_and_dirSuffix (some "m") (some "sw") (some "ios") "h"
      none (fun _ => NetResult.ok none) initialState).2 (by decide)⟩

/-- C8, counterexample: a `build` failure whose response body is the raw text
`boom` (truthy, carrying no structured `error` field) rejects with the
`undefined` message, not with the raw text and not with the status text. -/
theorem build_raw_text_error_not_surfaced :
    (build (some "m") (some "sw") (some "web") "h" none
        (fun _ => NetResult.err ⟨JsData.text "boom", "teapot"⟩) initialState).outcome
      = BuildOutcome.rejected none :=
  rfl

/-- C8, amended: when the failed response's body is truthy the rejection
message is the body's `error` field (which is `undefined` when the body has
no such field, a raw-text body included); when the body is falsy the message
is the status text.  The raw error text itself is never surfaced. -/
theorem build_error_message_two_tiers (mid sw p : Option String) (href : String)
    (opts : Option (List String)) (s : PublishState) (r : ErrResponse)
    (hm : falsyS mid = false) (hsw : falsyS sw = false) (hp : falsyS p = false) :
    (r.data.truthy = true →
      (build mid sw p href opts (fun _ => NetResult.err r) s).outcome
        = BuildOutcome.rejected r.data.errorField)
    ∧ (r.data.truthy = false →
      (build mid sw p href opts (fun _ => NetResult.err r) s).outcome
        = BuildOutcome.rejected (some r.statusText)) := by
  refine ⟨fun h => ?_, fun h => ?_⟩
  · simp [build, hm, hsw, hp, errorMessageOf, h]
  · simp [build, hm, hsw, hp, errorMessageOf, h]

/-- C8 witness: the amended theorem applied to a structured error body. -/
theorem build_error_message_witness :
    (build (some "m") (some "sw") (some "web") "h" none
        (fun _ => NetResult.err ⟨JsData.structured (some "E"), "st"⟩) initialState).outcome
      = BuildOutcome.rejected (some "E") :=
  (build_error_message_two_tiers (some "m") (some "sw") (some "web") "h" none
      initialState ⟨JsData.structured (some "E"), "st"⟩
      (by decide) (by decide) (by decide)).1 (by decide)

/-- C9: whenever the network call of `build` responds successfully with an
archive URL, the final state carries exactly that URL in `archiveLink` and
every other field, `appXLink` in particular, is unchanged. -/
theorem build_success_writes_archiveLink (mid sw p : Option String)
    (href : String) (opts : Option (List String)) (net : SentBuild → NetResult)
    (s : PublishState) (a : String)
    (h : net { manifestId := mid, serviceworker := sw, href := href
             , body := mkBuildRequest p opts } = NetResult.ok (some a)) :
    (build mid sw p href opts net s).state.archiveLink = some a
    ∧ (build mid sw p href opts net s).state.appXLink = s.appXLink
    ∧ (build mid sw p href opts net s).state.status = s.status
    ∧ (build mid sw p href opts net s).state.downloadDisabled = s.downloadDisabled := by
  refine ⟨?_, ?_, ?_, ?_⟩ <;> simp [build, h, updateArchiveLink]

/-- C9 witness: the theorem applied at a concrete successful response. -/
theorem build_success_writes_archiveLink_witness :
    (build (some "m") (some "sw") (some "web") "h" none
        (fun _ => NetResult.ok (some "https://x/y.zip")) initialState).state.archiveLink
      = some "https://x/y.zip"
    ∧ (build (some "m") (some "sw") (some "web") "h" none
        (fun _ => NetResult.ok (some "https://x/y.zip")) initialState).state.appXLink
      = initialState.appXLink :=
  ⟨(build_success_writes_archiveLink (some "m") (some "sw") (some "web") "h"
      none (fun _ => NetResult.ok (some "https://x/y.zip")) initialState
      "https://x/y.zip" rfl).1,
   (build_success_writes_archiveLink (some "m") (some "sw") (some "web") "h"
      none (fun _ => NetResult.ok (some "https://x/y.zip")) initialState
      "https://x/y.zip" rfl).2.1⟩

/-- Decoder that fails on every input, standing for `JSON.parse` applied to a
text that is not valid JSON. -/
def parseNever : String → Except Unit TeamsParams := fun _ => Except.error ()

/-- C10: a `buildTeams` call with the manifest id present whose first options
element is not valid JSON leaves the promise pending forever: it neither
resolves, nor rejects with any error identifier, nor delegates to `build` —
`TeamsResult.pending` is a constructor distinct from `rejected` and
`delegated`. -/
theorem buildTeams_bad_json_never_settles :
    buildTeams parseNever (some "m") "h" (some ["not json"]) = TeamsResult.pending :=
  rfl
